import Mathlib

/-
Verification of the filtered-aggregation pipeline shared by DashV2.py,
simple_dashboard.py and create_dashboard.py.

The embedding is a direct translation of the pandas code paths:
records are rows of the loaded CSV, a dropdown selection value is an
`Option String` (Python `None` is `none`, a string value `s` is `some s`),
fallible code (the `int(...)` conversion inside `get_filtered_data`)
returns `Except String`, and machine floats are modelled by `Rat`
(all quantities produced by the pipeline are exact decimal fractions).
`pd.cut` at load time, `pd.crosstab(..., normalize='index') * 100`,
the groupby/size counts, the outer merge of the two count tables, the
percentage with `.round(1)` (numpy half-even rounding) and the left
merge onto the STATEFP == "51" rows of the boundary shapefile are each
translated below under the name of the enclosing source function.
-/

set_option maxHeartbeats 1000000

namespace Dash

/- One row of the loaded dataset: the columns the pipeline reads.
`ageBand` is the derived AGE_BAND column; it is `none` where `pd.cut`
produces NaN (age outside the bins), `some label` otherwise. -/
structure Record where
  classification : Int
  age : Rat
  ageBand : Option String
  county : String
  countyCode : String
  state : String
deriving DecidableEq

/- Label of the j-th five-year bin, from the source list comprehension
`[f'{i}-{i+4}' for i in range(0, 100, 5)]` (the left edge is 5*j). -/
def bandLabel (j : Nat) : String := toString (5 * j) ++ "-" ++ toString (5 * j + 4)

/- The 20 categorical labels of the AGE_BAND column. -/
def bandLabels : List String := (List.range 20).map bandLabel

/- Membership of an age in the j-th right-open bin [5j, 5j+5), as in
`pd.cut(..., bins=range(0, 105, 5), right=False)`. -/
def bandCond (j : Nat) (a : Rat) : Prop := 5 * j ≤ a ∧ a < 5 * j + 5

instance (j : Nat) (a : Rat) : Decidable (bandCond j a) := by
  unfold bandCond; infer_instance

/- Search for the bin containing `a`, over the list of bin indices. -/
def cutSearch (a : Rat) : List Nat → Option Nat
  | [] => none
  | j :: rest => if bandCond j a then some j else cutSearch a rest

/- AGE_BAND of one age value: the label of the containing bin, none (NaN)
when no bin of [0,100) contains the age. -/
def ageBandOf (a : Rat) : Option String := (cutSearch a (List.range 20)).map bandLabel

/- The load-time line df[AGE_BAND] = pd.cut(df[AGE], ...): attach the
derived band to every record. -/
def loadAgeBands (l : List Record) : List Record :=
  l.map (fun r => { r with ageBand := ageBandOf r.age })

/- The dropdown sentinel meaning no constraint. -/
def allStr : String := "All"

/- Message of the Python TypeError raised by int(None). -/
def typeErrorMsg : String :=
  "TypeError: int() argument must be a string, a bytes-like object or a real number, not NoneType"

/- Message prefix of the Python ValueError raised by int on a bad literal. -/
def valueErrorPrefix : String := "ValueError: invalid literal for int() with base 10: "

/- Value of one decimal digit character, none for a non-digit. -/
def digitVal (c : Char) : Option Nat :=
  if c.toNat < 48 then none
  else if 57 < c.toNat then none
  else some (c.toNat - 48)

/- Value of a nonempty decimal digit string, none when any character is
not a digit or the list is empty. -/
def digitsVal : List Char → Option Nat
  | [] => none
  | [c] => digitVal c
  | c :: rest =>
    match digitVal c, digitsVal rest with
    | some d, some n => some (d * 10 ^ rest.length + n)
    | _, _ => none

/- A base-10 integer literal: an optional minus sign then decimal
digits; anything else is rejected, as Python int rejects it. -/
def intLit? (s : String) : Option Int :=
  match s.data with
  | [] => none
  | c :: rest =>
    if c = Char.ofNat 45 then (digitsVal rest).map (fun n => -(n : Int))
    else (digitsVal s.data).map (fun n => (n : Int))

/- Python int(x) on a dropdown value: None raises TypeError, a string
that is not an integer literal raises ValueError. The dropdown values
the UI supplies are str() images of the CLASSIFICATION column, so plain
optionally signed digit strings cover them; Python also strips
surrounding whitespace and accepts a plus sign or underscores, which no
dropdown value contains. -/
def pyInt : Option String → Except String Int
  | none => Except.error typeErrorMsg
  | some s =>
    match intLit? s with
    | some k => Except.ok k
    | none => Except.error (valueErrorPrefix ++ s)

/- Elementwise `filtered_df[AGE_BAND] == selected_age_band`: a categorical
cell equals a selection only when the selection is that exact string; a
NaN cell, or a None selection, compares false. -/
def ageSelMatches (band : Option String) (sel : Option String) : Bool :=
  match sel with
  | some s => band == some s
  | none => false

/- Elementwise `filtered_df[COUNTY] == selected_county`. -/
def countySelMatches (county : String) (sel : Option String) : Bool :=
  match sel with
  | some s => county == s
  | none => false

/- The classification branch of get_filtered_data: skipped only when the
selection equals the string All, otherwise int(...) then an exact-match
mask on CLASSIFICATION. -/
def classFilter (data : List Record) (sc : Option String) : Except String (List Record) :=
  if sc = some allStr then Except.ok data
  else
    match pyInt sc with
    | Except.error e => Except.error e
    | Except.ok k => Except.ok (data.filter (fun r => r.classification == k))

/- The AGE_BAND branch of get_filtered_data. -/
def ageFilter (d : List Record) (sa : Option String) : List Record :=
  if sa = some allStr then d else d.filter (fun r => ageSelMatches r.ageBand sa)

/- The COUNTY branch of get_filtered_data. -/
def countyFilter (d : List Record) (sco : Option String) : List Record :=
  if sco = some allStr then d else d.filter (fun r => countySelMatches r.county sco)

/- get_filtered_data (DashV2.py lines 34-46, simple_dashboard.py 32-43):
copy the input, apply the three masks in order; the int conversion on the
classification branch may raise. The pn.cache decorator memoizes the
call and does not change its value. -/
def get_filtered_data (data : List Record) (sc sa sco : Option String) :
    Except String (List Record) :=
  match classFilter data sc with
  | Except.error e => Except.error e
  | Except.ok d1 => Except.ok (countyFilter (ageFilter d1 sa) sco)

/- The three display values computed by create_stats_box. -/
structure Stats where
  total : Nat
  matching : Nat
  pct : Rat
deriving DecidableEq

/- create_stats_box (DashV2.py lines 48-53): total row count, count of
CLASSIFICATION == 1, and the percentage guarded by `if total_count > 0`. -/
def create_stats_box (l : List Record) : Stats :=
  let total := l.length
  let ones := (l.filter (fun r => r.classification == 1)).length
  { total := total
    matching := ones
    pct := if 0 < total then (ones : Rat) / (total : Rat) * 100 else 0 }

/- create_heatmap (DashV2.py lines 73-78): pd.crosstab of CLASSIFICATION
against the categorical AGE_BAND, normalized by row and scaled by 100.
The crosstab counts only rows whose AGE_BAND is not NaN; its columns are
the 20 categories of AGE_BAND; its rows are the classification values
observed among the counted rows. -/
def pivot_cell (l : List Record) (c : Int) (b : String) : Nat :=
  (l.filter (fun r => r.classification == c && r.ageBand == some b)).length

/- Row sum of the crosstab counts for classification c, over the 20
categorical columns: the divisor of normalize=index. -/
def pivot_rowTotal (l : List Record) (c : Int) : Nat :=
  (bandLabels.map (pivot_cell l c)).sum

/- One cell of the row-normalized percentage table pivot_data. -/
def pivot_data (l : List Record) (c : Int) (b : String) : Rat :=
  (pivot_cell l c b : Rat) / (pivot_rowTotal l c : Rat) * 100

/- The row index of the crosstab: classification values with at least one
row whose AGE_BAND is not NaN (pd.crosstab drops NaN pairs). -/
def crosstab_rows (l : List Record) : List Int :=
  ((l.filter (fun r => r.ageBand.isSome)).map (fun r => r.classification)).dedup

/- One row of the boundary shapefile tl_2024_us_county.shp: the columns
create_va_heatmap reads (STATEFP, GEOID as str, NAME). -/
structure BRow where
  statefp : String
  geoid : String
  name : String
deriving DecidableEq

/- One row of the county_counts table of create_va_heatmap after the
outer merge, fillna(0) and the CLASS_1_PERCENT column. -/
structure CCRow where
  code : String
  county : String
  class1 : Nat
  total : Nat
  pct : Rat
deriving DecidableEq

/- Round to the nearest integer, ties to even: the rounding of numpy
round, used by pandas Series.round. -/
def roundHalfEven (q : Rat) : Int :=
  let n := q.floor
  if q - (n : Rat) < 1 / 2 then n
  else if (1 : Rat) / 2 < q - (n : Rat) then n + 1
  else if n % 2 = 0 then n else n + 1

/- Series.round(1): round to one decimal place, ties to even. -/
def round1 (q : Rat) : Rat := (roundHalfEven (q * 10) : Rat) / 10

/- The groupby key (COUNTY_CODE, COUNTY) of create_va_heatmap. -/
def recKey (r : Record) : String × String := (r.countyCode, r.county)

/- groupby([COUNTY_CODE, COUNTY]).size(): one pair per distinct key, with
the number of rows carrying that key. -/
def groupSize (l : List Record) : List ((String × String) × Nat) :=
  ((l.map recKey).dedup).map
    (fun k => (k, (l.filter (fun r => recKey r == k)).length))

/- Build one county_counts row from a key and its two counts, including
the CLASS_1_PERCENT column (count ratio scaled by 100, rounded to one
decimal). -/
def mkCC (k : String × String) (c1 t : Nat) : CCRow :=
  { code := k.1
    county := k.2
    class1 := c1
    total := t
    pct := round1 ((c1 : Rat) / (t : Rat) * 100) }

/- class_1_counts (DashV2.py line 123): group sizes of the class-1 rows. -/
def class_1_counts (va : List Record) : List ((String × String) × Nat) :=
  groupSize (va.filter (fun r => r.classification == 1))

/- Rows of the outer merge whose key occurs on the class-1 side: the key
and class-1 count, joined with the matching total count (the none
branch is the fillna(0) of a left key missing on the right; it is
unreachable because every class-1 row is a row). -/
def ccLeft (va : List Record) : List CCRow :=
  (class_1_counts va).map (fun kc =>
    match (groupSize va).find? (fun kt => kt.1 == kc.1) with
    | some kt => mkCC kc.1 kc.2 kt.2
    | none => mkCC kc.1 kc.2 0)

/- Rows of the outer merge whose key occurs only on the total side:
their class-1 count is the fillna(0). -/
def ccRight (va : List Record) : List CCRow :=
  ((groupSize va).filter
      (fun kt => ! (class_1_counts va).any (fun kc => kc.1 == kt.1))).map
    (fun kt => mkCC kt.1 0 kt.2)

/- county_counts (DashV2.py lines 123-132): the outer merge on
[COUNTY_CODE, COUNTY] of the class-1 group sizes with the all-rows group
sizes, with fillna(0) on both count columns, then CLASS_1_PERCENT. -/
def county_counts (va : List Record) : List CCRow :=
  ccLeft va ++ ccRight va

/- One row of the merged va_counties table: the data columns attached to
each boundary polygon after the left merge and the fillna(0) lines. -/
structure AggRow where
  geoid : String
  name : String
  class1 : Nat
  total : Nat
  pct : Rat
deriving DecidableEq

/- The left-merge step for one boundary row: the county_counts rows
whose COUNTY_CODE equals the GEOID each produce an output row (pandas
merge repeats the left row once per match); no match produces a single
row whose data columns the fillna(0) lines set to 0. -/
def mergeRow (cc : List CCRow) (b : BRow) : List AggRow :=
  match cc.filter (fun c => c.code == b.geoid) with
  | [] => [{ geoid := b.geoid, name := b.name, class1 := 0, total := 0, pct := 0 }]
  | m :: ms => (m :: ms).map (fun c =>
      { geoid := b.geoid, name := b.name, class1 := c.class1
        total := c.total, pct := c.pct })

/- The va_data restriction (DashV2.py line 120). -/
def va_only (filtered : List Record) : List Record :=
  filtered.filter (fun r => r.state == "VA")

/- The boundary reference restricted to STATEFP 51 (line 136). -/
def boundary51 (shp : List BRow) : List BRow :=
  shp.filter (fun b => b.statefp == "51")

/- create_va_heatmap (DashV2.py lines 117-150): restrict to STATE == VA,
build county_counts, take the shapefile rows with STATEFP == 51,
left-merge county_counts onto them by GEOID = COUNTY_CODE, and fill the
data columns of unmatched boundary rows with 0. -/
def create_va_heatmap (shp : List BRow) (filtered : List Record) : List AggRow :=
  (boundary51 shp).flatMap (mergeRow (county_counts (va_only filtered)))

/- The process state: the full record set loaded once at startup. -/
structure DashState where
  df : List Record
deriving DecidableEq

/- update_dashboard (DashV2.py lines 190-198): run the pipeline for one
triple of dropdown values against the loaded set; the Python functions
copy their input and rebind locals only, so the state is returned as it
was received. -/
def update_dashboard (shp : List BRow) (st : DashState)
    (req : Option String × Option String × Option String) :
    Except String (List Record × Stats × List AggRow) × DashState :=
  match get_filtered_data st.df req.1 req.2.1 req.2.2 with
  | Except.error e => (Except.error e, st)
  | Except.ok f => (Except.ok (f, create_stats_box f, create_va_heatmap shp f), st)

/- A sequence of dropdown changes: each re-renders from the state left by
the previous one. -/
def run_requests (shp : List BRow) (st : DashState) :
    List (Option String × Option String × Option String) → DashState
  | [] => st
  | req :: rest => run_requests shp (update_dashboard shp st req).2 rest

/- Concrete records used to instantiate the theorems below. -/
def wrec1 : Record :=
  { classification := 1, age := 3, ageBand := some ("0-4")
    county := "Accomack", countyCode := "51001", state := "VA" }

def wrec2 : Record :=
  { classification := 0, age := 97, ageBand := some ("95-99")
    county := "Accomack", countyCode := "51001", state := "VA" }

def wrec4 : Record :=
  { classification := 1, age := 10, ageBand := some ("10-14")
    county := "Outside", countyCode := "99999", state := "VA" }

def wrecA : Record :=
  { classification := 0, age := 7, ageBand := none
    county := "Accomack", countyCode := "51001", state := "VA" }

/- A one-county boundary reference restricted to STATEFP 51. -/
def shpEx : List BRow := [{ statefp := "51", geoid := "51001", name := "Accomack" }]

/- The 100-row example of the spec: rows 0..39 carry classification 1,
rows 40..99 classification 0, ages span 0..99 so every five-year band
occurs. -/
def ex100 : List Record :=
  (List.range 100).map (fun i =>
    { classification := if i < 40 then 1 else 0
      age := (i : Rat)
      ageBand := ageBandOf (i : Rat)
      county := "Fairfax"
      countyCode := "51059"
      state := "VA" })

end Dash

namespace Dash

theorem classFilter_ok {data : List Record} {sc : Option String} {d1 : List Record}
    (h : classFilter data sc = Except.ok d1) :
    d1.Sublist data ∧
      (∀ r ∈ d1, sc ≠ some allStr → ∃ k, pyInt sc = Except.ok k ∧ r.classification = k) ∧
      (sc = some allStr → d1 = data) := by
  unfold classFilter at h
  by_cases hsc : sc = some allStr
  · rw [if_pos hsc] at h
    cases h
    exact ⟨List.Sublist.refl _, fun r _ hne => absurd hsc hne, fun _ => rfl⟩
  · rw [if_neg hsc] at h
    cases hp : pyInt sc with
    | error e => rw [hp] at h; cases h
    | ok k =>
      rw [hp] at h
      cases h
      refine ⟨List.filter_sublist _, ?_, fun heq => absurd heq hsc⟩
      intro r hr _
      exact ⟨k, rfl, by simpa using (List.mem_filter.1 hr).2⟩

theorem ageFilter_sublist (d : List Record) (sa : Option String) :
    (ageFilter d sa).Sublist d := by
  unfold ageFilter
  split
  · exact List.Sublist.refl _
  · exact List.filter_sublist _

theorem mem_ageFilter {d : List Record} {sa : Option String} {r : Record}
    (h : r ∈ ageFilter d sa) :
    r ∈ d ∧ (sa ≠ some allStr → ageSelMatches r.ageBand sa = true) := by
  unfold ageFilter at h
  by_cases hsa : sa = some allStr
  · rw [if_pos hsa] at h
    exact ⟨h, fun hne => absurd hsa hne⟩
  · rw [if_neg hsa] at h
    have hm := List.mem_filter.1 h
    exact ⟨hm.1, fun _ => hm.2⟩

theorem countyFilter_sublist (d : List Record) (sco : Option String) :
    (countyFilter d sco).Sublist d := by
  unfold countyFilter
  split
  · exact List.Sublist.refl _
  · exact List.filter_sublist _

theorem mem_countyFilter {d : List Record} {sco : Option String} {r : Record}
    (h : r ∈ countyFilter d sco) :
    r ∈ d ∧ (sco ≠ some allStr → countySelMatches r.county sco = true) := by
  unfold countyFilter at h
  by_cases hsco : sco = some allStr
  · rw [if_pos hsco] at h
    exact ⟨h, fun hne => absurd hsco hne⟩
  · rw [if_neg hsco] at h
    have hm := List.mem_filter.1 h
    exact ⟨hm.1, fun _ => hm.2⟩

/-- C1: whenever get_filtered_data returns a table, that table is a
subset (sublist) of its input, every returned row satisfies every
selection component that differs from the sentinel All (the
classification one through the successful int conversion), and the
all-All selection returns the input unchanged. -/
theorem c1_filter_correct (data : List Record) (sc sa sco : Option String)
    (out : List Record) (h : get_filtered_data data sc sa sco = Except.ok out) :
    out.Sublist data ∧
      (∀ r ∈ out,
        (sc ≠ some allStr → ∃ k, pyInt sc = Except.ok k ∧ r.classification = k) ∧
        (sa ≠ some allStr → ageSelMatches r.ageBand sa = true) ∧
        (sco ≠ some allStr → countySelMatches r.county sco = true)) ∧
      (sc = some allStr → sa = some allStr → sco = some allStr → out = data) := by
  unfold get_filtered_data at h
  cases hcf : classFilter data sc with
  | error e => rw [hcf] at h; cases h
  | ok d1 =>
    rw [hcf] at h
    cases h
    obtain ⟨hsub1, hmem1, hid1⟩ := classFilter_ok hcf
    refine ⟨((countyFilter_sublist _ _).trans (ageFilter_sublist _ _)).trans hsub1, ?_, ?_⟩
    · intro r hr
      obtain ⟨hr2, hco⟩ := mem_countyFilter hr
      obtain ⟨hr1, hag⟩ := mem_ageFilter hr2
      exact ⟨hmem1 r hr1, hag, hco⟩
    · intro h1 h2 h3
      simp [countyFilter, ageFilter, if_pos h2, if_pos h3, hid1 h1]

/-- Witness for C1 at a concrete two-row table and the selection
(classification 1, All, All). -/
theorem c1_witness :
    ([wrec1] : List Record).Sublist [wrec1, wrec2] ∧
      (∀ r ∈ ([wrec1] : List Record),
        ((some ("1") : Option String) ≠ some allStr →
          ∃ k, pyInt (some ("1")) = Except.ok k ∧ r.classification = k) ∧
        ((some allStr : Option String) ≠ some allStr →
          ageSelMatches r.ageBand (some allStr) = true) ∧
        ((some allStr : Option String) ≠ some allStr →
          countySelMatches r.county (some allStr) = true)) ∧
      ((some ("1") : Option String) = some allStr → (some allStr : Option String) = some allStr →
        (some allStr : Option String) = some allStr → [wrec1] = [wrec1, wrec2]) :=
  c1_filter_correct [wrec1, wrec2] (some ("1")) (some allStr) (some allStr) [wrec1] rfl

/-- C7: a classification selection other than All whose value the int
conversion rejects makes get_filtered_data propagate that error and
return no table. -/
theorem c7_error_propagation (data : List Record) (sa sco : Option String)
    (s : Option String) (e : String)
    (hne : s ≠ some allStr) (he : pyInt s = Except.error e) :
    get_filtered_data data s sa sco = Except.error e := by
  unfold get_filtered_data classFilter
  rw [if_neg hne, he]

/-- Witness for C7 at the non-numeric classification value abc. -/
theorem c7_witness :
    get_filtered_data [wrec1] (some ("abc")) (some allStr) (some allStr) =
      Except.error (valueErrorPrefix ++ "abc") :=
  c7_error_propagation [wrec1] (some allStr) (some allStr) (some ("abc")) _ (by decide) rfl

/-- C10: only the exact string All disables a selection component; the
declared default None is an active constraint, so the classification
branch calls int(None) and the call with default arguments errors
instead of returning the unfiltered set, and every non-All value goes
through the int conversion and the exact-match mask. -/
theorem c10_none_default (data : List Record) (sa sco : Option String) :
    get_filtered_data data none sa sco = Except.error typeErrorMsg ∧
      (∀ s : Option String, s ≠ some allStr →
        get_filtered_data data s (some allStr) (some allStr) =
          (pyInt s).map (fun k => data.filter (fun r => r.classification == k))) := by
  constructor
  · unfold get_filtered_data classFilter
    rw [if_neg (by simp : (none : Option String) ≠ some allStr)]
    rfl
  · intro s hs
    unfold get_filtered_data classFilter
    rw [if_neg hs]
    cases hp : pyInt s with
    | error e => rfl
    | ok k => simp [ageFilter, countyFilter, Except.map]

/-- Witness for C10 at the non-All value 2 on an empty table. -/
theorem c10_witness :
    get_filtered_data ([] : List Record) (some ("2")) (some allStr) (some allStr) =
      (pyInt (some ("2"))).map (fun k => ([] : List Record).filter (fun r => r.classification == k)) :=
  (c10_none_default [] (some allStr) (some allStr)).2 (some ("2")) (by decide)

/-- C9: no pipeline operation mutates the loaded record set: after any
sequence of dropdown requests run against the state, the full record
set is the one loaded at start. -/
theorem c9_no_mutation (shp : List BRow) (st : DashState)
    (reqs : List (Option String × Option String × Option String)) :
    (run_requests shp st reqs).df = st.df := by
  induction reqs generalizing st with
  | nil => rfl
  | cons req rest ih =>
    have hstep : (update_dashboard shp st req).2 = st := by
      unfold update_dashboard
      cases get_filtered_data st.df req.1 req.2.1 req.2.2 <;> rfl
    rw [show run_requests shp st (req :: rest) =
          run_requests shp (update_dashboard shp st req).2 rest from rfl, hstep]
    exact ih st

/-- C6: the statistics summarizer returns the row count, the count of
classification-1 rows and their percentage (0 for an empty table); on
the 100-row example with 40 classification-1 rows and ages spanning all
bands, under the all-All selection, it returns total 100, matching 40,
percentage 40. -/
theorem c6_stats_summary :
    (∀ l : List Record,
      (create_stats_box l).total = l.length ∧
      (create_stats_box l).matching = (l.filter (fun r => r.classification == 1)).length ∧
      ((create_stats_box l).total = 0 → (create_stats_box l).pct = 0) ∧
      (0 < (create_stats_box l).total →
        (create_stats_box l).pct =
          ((create_stats_box l).matching : Rat) / ((create_stats_box l).total : Rat) * 100)) ∧
    get_filtered_data ex100 (some allStr) (some allStr) (some allStr) = Except.ok ex100 ∧
    create_stats_box ex100 = { total := 100, matching := 40, pct := 40 } := by
  refine ⟨fun l => ⟨rfl, rfl, ?_, ?_⟩, rfl, ?_⟩
  · intro h0
    have h0' : l.length = 0 := h0
    show (if 0 < l.length then
        ((l.filter (fun r => r.classification == 1)).length : Rat) / (l.length : Rat) * 100
      else 0) = 0
    rw [if_neg (by omega)]
  · intro hpos
    have hpos' : 0 < l.length := hpos
    show (if 0 < l.length then
        ((l.filter (fun r => r.classification == 1)).length : Rat) / (l.length : Rat) * 100
      else 0) =
      ((create_stats_box l).matching : Rat) / ((create_stats_box l).total : Rat) * 100
    rw [if_pos hpos']
    rfl
  · have hl : ex100.length = 100 := by decide
    have hm : (ex100.filter (fun r => r.classification == 1)).length = 40 := by decide
    rw [show create_stats_box ex100 =
        { total := ex100.length
          matching := (ex100.filter (fun r => r.classification == 1)).length
          pct := if 0 < ex100.length then
              ((ex100.filter (fun r => r.classification == 1)).length : Rat) /
                (ex100.length : Rat) * 100
            else 0 } from rfl, hl, hm]
    norm_num

/-- Witness for C6: the zero-denominator case at the empty table. -/
theorem c6_witness : (create_stats_box []).pct = 0 :=
  (c6_stats_summary.1 []).2.2.1 rfl

theorem bandCond_unique {a : Rat} {i j : Nat} (hi : bandCond i a) (hj : bandCond j a) :
    i = j := by
  obtain ⟨hi1, hi2⟩ := hi
  obtain ⟨hj1, hj2⟩ := hj
  have h1 : i < j + 1 := by
    have : (i : Rat) < (j : Rat) + 1 := by nlinarith
    exact_mod_cast this
  have h2 : j < i + 1 := by
    have : (j : Rat) < (i : Rat) + 1 := by nlinarith
    exact_mod_cast this
  omega

theorem cutSearch_mem {a : Rat} {j : Nat} :
    ∀ {l : List Nat}, j ∈ l → bandCond j a → cutSearch a l = some j := by
  intro l
  induction l with
  | nil => intro h; cases h
  | cons i t ih =>
    intro hmem hc
    unfold cutSearch
    by_cases h : bandCond i a
    · rw [if_pos h, bandCond_unique h hc]
    · rw [if_neg h]
      cases List.mem_cons.1 hmem with
      | inl heq => exact absurd (heq ▸ hc) h
      | inr ht => exact ih ht hc

theorem band_floor {a : Rat} (h0 : 0 ≤ a) : bandCond (⌊a / 5⌋).toNat a := by
  have hnn : (0 : Int) ≤ ⌊a / 5⌋ := Int.floor_nonneg.2 (by positivity)
  have hcast : (((⌊a / 5⌋).toNat : Nat) : Rat) = ((⌊a / 5⌋ : Int) : Rat) := by
    exact_mod_cast congrArg (fun z : Int => (z : Rat)) (Int.toNat_of_nonneg hnn)
  have hfl : ((⌊a / 5⌋ : Int) : Rat) ≤ a / 5 := Int.floor_le _
  have hfu : a / 5 < ((⌊a / 5⌋ : Int) : Rat) + 1 := Int.lt_floor_add_one _
  constructor
  · rw [show ((5 : Rat) * (⌊a / 5⌋).toNat = 5 * (((⌊a / 5⌋).toNat : Nat) : Rat)) from rfl,
      hcast]
    nlinarith
  · rw [show ((5 : Rat) * (⌊a / 5⌋).toNat + 5 = 5 * (((⌊a / 5⌋).toNat : Nat) : Rat) + 5) from rfl,
      hcast]
    nlinarith

theorem floor_toNat_lt {a : Rat} (_h0 : 0 ≤ a) (h1 : a < 100) : (⌊a / 5⌋).toNat < 20 := by
  have hlt : ⌊a / 5⌋ < 20 := by
    apply Int.floor_lt.2
    push_cast
    nlinarith
  omega

/-- C8: at load time every record whose age lies in [0,100) gets the band
of the right-open five-unit interval containing its age, labelled
i-(i+4) for i = 5*floor(age/5); the 20 bands are pairwise disjoint and
cover [0,100). -/
theorem c8_age_bands (l : List Record) (r : Record)
    (hr : r ∈ loadAgeBands l) (h0 : 0 ≤ r.age) (h1 : r.age < 100) :
    r.ageBand = some (bandLabel (⌊r.age / 5⌋).toNat) ∧
      bandLabel (⌊r.age / 5⌋).toNat =
        toString (5 * (⌊r.age / 5⌋).toNat) ++ "-" ++ toString (5 * (⌊r.age / 5⌋).toNat + 4) ∧
      bandCond (⌊r.age / 5⌋).toNat r.age ∧
      (∀ (i j : Nat) (b : Rat), bandCond i b → bandCond j b → i = j) ∧
      (∀ b : Rat, (0 ≤ b ∧ b < 100) ↔ ∃ i, i < 20 ∧ bandCond i b) := by
  obtain ⟨r0, hr0, heq⟩ := List.mem_map.1 hr
  subst heq
  refine ⟨?_, rfl, band_floor h0, fun i j b hib hjb => bandCond_unique hib hjb, fun b => ?_⟩
  · show ageBandOf r0.age = some (bandLabel (⌊r0.age / 5⌋).toNat)
    unfold ageBandOf
    rw [cutSearch_mem (List.mem_range.2 (floor_toNat_lt h0 h1)) (band_floor h0)]
    rfl
  · constructor
    · rintro ⟨hb0, hb1⟩
      exact ⟨(⌊b / 5⌋).toNat, floor_toNat_lt hb0 hb1, band_floor hb0⟩
    · rintro ⟨i, hi20, hc1, hc2⟩
      have hile : (i : Rat) ≤ 19 := by exact_mod_cast Nat.lt_succ_iff.1 hi20
      have hpos : (0 : Rat) ≤ 5 * (i : Rat) := by positivity
      exact ⟨le_trans hpos hc1, by nlinarith⟩

/-- Witness for C8: a record of age 7 lands in the second band, 5-9. -/
theorem c8_witness :
    ({ wrecA with ageBand := ageBandOf wrecA.age } : Record).ageBand = some (bandLabel 1) := by
  have h := c8_age_bands [wrecA] { wrecA with ageBand := ageBandOf wrecA.age }
    (by simp [loadAgeBands]) (by norm_num [wrecA]) (by norm_num [wrecA])
  have hfl : (⌊({ wrecA with ageBand := ageBandOf wrecA.age } : Record).age / 5⌋).toNat = 1 := by
    norm_num [wrecA]
  rw [h.1, hfl]

/-- C4: the cross-tab table has one row per classification value observed
with a defined age band and one column per five-year band; a row whose
classification has at least one counted record sums to 100, a
classification with none sums to 0, and an absent
classification-by-band combination is a zero cell, not a missing one. -/
theorem c4_crosstab (l : List Record)
    (hband : ∀ r ∈ l, ∀ s : String, r.ageBand = some s → s ∈ bandLabels) :
    (∀ c : Int, c ∈ crosstab_rows l ↔ ∃ r ∈ l, r.classification = c ∧ r.ageBand.isSome = true) ∧
      (crosstab_rows l).Nodup ∧
      (∀ c : Int, (∃ r ∈ l, r.classification = c ∧ r.ageBand.isSome = true) →
        (bandLabels.map (pivot_data l c)).sum = 100) ∧
      (∀ c : Int, (¬ ∃ r ∈ l, r.classification = c ∧ r.ageBand.isSome = true) →
        (bandLabels.map (pivot_data l c)).sum = 0) ∧
      (∀ (c : Int) (b : String), (¬ ∃ r ∈ l, r.classification = c ∧ r.ageBand = some b) →
        pivot_data l c b = 0) := by
  refine ⟨?_, List.nodup_dedup _, ?_, ?_, ?_⟩
  · intro c
    unfold crosstab_rows
    rw [List.mem_dedup, List.mem_map]
    constructor
    · rintro ⟨r, hr, rfl⟩
      have hm := List.mem_filter.1 hr
      exact ⟨r, hm.1, rfl, hm.2⟩
    · rintro ⟨r, hrl, rfl, hs⟩
      exact ⟨r, List.mem_filter.2 ⟨hrl, hs⟩, rfl⟩
  · rintro c ⟨r, hrl, hrc, hrs⟩
    obtain ⟨s, hs⟩ := Option.isSome_iff_exists.1 hrs
    have hsl : s ∈ bandLabels := hband r hrl s hs
    have hrf : r ∈ l.filter (fun r => r.classification == c && r.ageBand == some s) :=
      List.mem_filter.2 ⟨hrl, by simp [hrc, hs]⟩
    have hcell : 0 < pivot_cell l c s := List.length_pos_of_mem hrf
    have hTle : pivot_cell l c s ≤ pivot_rowTotal l c :=
      List.single_le_sum (fun x _ => Nat.zero_le x) _ (List.mem_map.2 ⟨s, hsl, rfl⟩)
    have hT : 0 < pivot_rowTotal l c := lt_of_lt_of_le hcell hTle
    have hTQ : ((pivot_rowTotal l c : Nat) : Rat) ≠ 0 := by exact_mod_cast hT.ne'
    calc (bandLabels.map (pivot_data l c)).sum
        = (bandLabels.map
            (fun b => (pivot_cell l c b : Rat) * (100 / (pivot_rowTotal l c : Rat)))).sum := by
          refine congrArg List.sum (List.map_congr_left ?_)
          intro b _
          unfold pivot_data
          ring
      _ = (bandLabels.map (fun b => (pivot_cell l c b : Rat))).sum *
            (100 / (pivot_rowTotal l c : Rat)) := List.sum_map_mul_right _ _ _
      _ = ((pivot_rowTotal l c : Nat) : Rat) * (100 / (pivot_rowTotal l c : Rat)) := by
          unfold pivot_rowTotal
          rw [Nat.cast_list_sum, List.map_map]
          rfl
      _ = 100 := by field_simp
  · intro c hno
    have hz : ∀ b : String, pivot_data l c b = 0 := by
      intro b
      have hcell : pivot_cell l c b = 0 := by
        unfold pivot_cell
        rw [List.length_eq_zero, List.filter_eq_nil_iff]
        intro r hrl hp
        rw [Bool.and_eq_true, beq_iff_eq, beq_iff_eq] at hp
        exact hno ⟨r, hrl, hp.1, by simp [hp.2]⟩
      unfold pivot_data
      rw [hcell]
      simp
    refine List.sum_eq_zero ?_
    intro x hx
    obtain ⟨b, _, rfl⟩ := List.mem_map.1 hx
    exact hz b
  · intro c b hno
    have hcell : pivot_cell l c b = 0 := by
      unfold pivot_cell
      rw [List.length_eq_zero, List.filter_eq_nil_iff]
      intro r hrl hp
      rw [Bool.and_eq_true, beq_iff_eq, beq_iff_eq] at hp
      exact hno ⟨r, hrl, hp.1, hp.2⟩
    unfold pivot_data
    rw [hcell]
    simp

theorem groupSize_keys (l : List Record) :
    (groupSize l).map Prod.fst = (l.map recKey).dedup := by
  unfold groupSize
  rw [List.map_map]
  exact List.map_id _

theorem mem_groupSize {l : List Record} {p : (String × String) × Nat}
    (h : p ∈ groupSize l) :
    (∃ r ∈ l, recKey r = p.1) ∧ 0 < p.2 := by
  unfold groupSize at h
  obtain ⟨k, hk, heq⟩ := List.mem_map.1 h
  obtain ⟨r, hrl, hrk⟩ := List.mem_map.1 (List.mem_dedup.1 hk)
  subst heq
  exact ⟨⟨r, hrl, hrk⟩,
    List.length_pos_of_mem (List.mem_filter.2 ⟨hrl, by simp [hrk]⟩)⟩

theorem groupSize_key_complete {l : List Record} {r : Record} (hr : r ∈ l) :
    ∃ p ∈ groupSize l, p.1 = recKey r := by
  have hm : recKey r ∈ (l.map recKey).dedup :=
    List.mem_dedup.2 (List.mem_map.2 ⟨r, hr, rfl⟩)
  exact ⟨_, List.mem_map.2 ⟨recKey r, hm, rfl⟩, rfl⟩

/- The merge key of a county_counts row. -/
def ccKey (c : CCRow) : String × String := (c.code, c.county)

theorem ccLeft_keys (va : List Record) :
    (ccLeft va).map ccKey = (class_1_counts va).map Prod.fst := by
  unfold ccLeft
  rw [List.map_map]
  refine List.map_congr_left ?_
  intro kc _
  show ccKey (match (groupSize va).find? (fun kt => kt.1 == kc.1) with
    | some kt => mkCC kc.1 kc.2 kt.2
    | none => mkCC kc.1 kc.2 0) = kc.1
  cases (groupSize va).find? (fun kt => kt.1 == kc.1) <;> rfl

theorem ccRight_keys (va : List Record) :
    (ccRight va).map ccKey =
      ((groupSize va).filter
        (fun kt => ! (class_1_counts va).any (fun kc => kc.1 == kt.1))).map Prod.fst := by
  unfold ccRight
  rw [List.map_map]
  rfl

theorem county_counts_rec {va : List Record} {c : CCRow} (h : c ∈ county_counts va) :
    (∃ r ∈ va, r.countyCode = c.code ∧ r.county = c.county) ∧ 0 < c.total := by
  unfold county_counts at h
  rcases List.mem_append.1 h with hleft | hright
  · obtain ⟨kc, hkc, heq⟩ := List.mem_map.1 hleft
    obtain ⟨⟨r, hrl, hrk⟩, _⟩ := mem_groupSize hkc
    have hrva : r ∈ va := (List.mem_filter.1 hrl).1
    cases hf : (groupSize va).find? (fun kt => kt.1 == kc.1) with
    | none =>
      obtain ⟨p, hp, hpk⟩ := groupSize_key_complete hrva
      have hnone := List.find?_eq_none.1 hf p hp
      rw [hpk, hrk] at hnone
      simp at hnone
    | some kt =>
      rw [hf] at heq
      subst heq
      exact ⟨⟨r, hrva, congrArg Prod.fst hrk, congrArg Prod.snd hrk⟩,
        (mem_groupSize (List.mem_of_find?_eq_some hf)).2⟩
  · obtain ⟨kt, hkt, heq⟩ := List.mem_map.1 hright
    obtain ⟨⟨r, hrl, hrk⟩, hpos⟩ := mem_groupSize ((List.mem_filter.1 hkt).1)
    subst heq
    exact ⟨⟨r, hrl, congrArg Prod.fst hrk, congrArg Prod.snd hrk⟩, hpos⟩

theorem county_counts_keys_nodup (va : List Record) :
    ((county_counts va).map ccKey).Nodup := by
  unfold county_counts
  rw [List.map_append, ccLeft_keys, ccRight_keys]
  refine List.Nodup.append ?_ ?_ ?_
  · rw [show class_1_counts va = groupSize (va.filter (fun r => r.classification == 1))
        from rfl, groupSize_keys]
    exact List.nodup_dedup _
  · have hsub := (List.filter_sublist (l := groupSize va)
      (p := fun kt => ! (class_1_counts va).any (fun kc => kc.1 == kt.1))).map Prod.fst
    exact ((groupSize_keys va ▸ List.nodup_dedup _ :
      ((groupSize va).map Prod.fst).Nodup)).sublist hsub
  · intro x hx1 hx2
    obtain ⟨kt, hktf, hktx⟩ := List.mem_map.1 hx2
    have hcond := (List.mem_filter.1 hktf).2
    rw [Bool.not_eq_true'] at hcond
    obtain ⟨kc, hkc, hkcx⟩ := List.mem_map.1 hx1
    have := List.any_eq_false.1 hcond kc hkc
    rw [hkcx, hktx] at this
    simp at this

theorem county_counts_codes_nodup (va : List Record)
    (hfd : ∀ r ∈ va, ∀ s ∈ va, r.countyCode = s.countyCode → r.county = s.county) :
    ((county_counts va).map (fun c => c.code)).Nodup := by
  have hmm : (county_counts va).map (fun c => c.code) =
      ((county_counts va).map ccKey).map Prod.fst := by
    rw [List.map_map]
    rfl
  rw [hmm]
  refine List.Nodup.map_on ?_ (county_counts_keys_nodup va)
  intro x hx y hy hxy
  obtain ⟨cx, hcx, rfl⟩ := List.mem_map.1 hx
  obtain ⟨cy, hcy, rfl⟩ := List.mem_map.1 hy
  obtain ⟨⟨rx, hrx, hrx1, hrx2⟩, _⟩ := county_counts_rec hcx
  obtain ⟨⟨ry, hry, hry1, hry2⟩, _⟩ := county_counts_rec hcy
  refine Prod.ext hxy ?_
  show cx.county = cy.county
  rw [← hrx2, ← hry2]
  exact hfd rx hrx ry hry (by rw [hrx1, hry1]; exact hxy)

theorem nodup_key_filter_len {α : Type} (f : α → String) :
    ∀ (l : List α), (l.map f).Nodup → ∀ g : String,
      (l.filter (fun x => f x == g)).length ≤ 1 := by
  intro l
  induction l with
  | nil => intro _ g; simp
  | cons a t ih =>
    intro hnd g
    rw [List.map_cons, List.nodup_cons] at hnd
    rw [List.filter_cons]
    by_cases h : f a == g
    · rw [if_pos h]
      have ht : t.filter (fun x => f x == g) = [] := by
        rw [List.filter_eq_nil_iff]
        intro x hx hpx
        refine hnd.1 (List.mem_map.2 ⟨x, hx, ?_⟩)
        rw [beq_iff_eq] at h hpx
        rw [hpx, h]
      rw [ht]
      simp
    · rw [if_neg h]
      exact ih hnd.2 g

theorem mergeRow_geoids {cc : List CCRow}
    (hlen : ∀ g : String, (cc.filter (fun c => c.code == g)).length ≤ 1) (b : BRow) :
    (mergeRow cc b).map (fun row => row.geoid) = [b.geoid] := by
  unfold mergeRow
  cases hm : cc.filter (fun c => c.code == b.geoid) with
  | nil => rfl
  | cons m ms =>
    have hle := hlen b.geoid
    rw [hm] at hle
    have hms : ms = [] := by
      cases ms with
      | nil => rfl
      | cons x xs => simp [List.length_cons] at hle
    subst hms
    rfl

theorem mergeRow_ne_nil (cc : List CCRow) (b : BRow) : mergeRow cc b ≠ [] := by
  unfold mergeRow
  cases cc.filter (fun c => c.code == b.geoid) <;> simp

theorem mem_mergeRow {cc : List CCRow} {b : BRow} {row : AggRow}
    (h : row ∈ mergeRow cc b) :
    row.geoid = b.geoid ∧
      ((row.class1 = 0 ∧ row.total = 0 ∧ row.pct = 0) ∨
        ∃ c ∈ cc, c.code = b.geoid ∧
          row.class1 = c.class1 ∧ row.total = c.total ∧ row.pct = c.pct) := by
  unfold mergeRow at h
  cases hm : cc.filter (fun c => c.code == b.geoid) with
  | nil =>
    rw [hm] at h
    rw [List.mem_singleton] at h
    subst h
    exact ⟨rfl, Or.inl ⟨rfl, rfl, rfl⟩⟩
  | cons m ms =>
    rw [hm] at h
    obtain ⟨c, hcm, heq⟩ := List.mem_map.1 h
    rw [← hm] at hcm
    have hcf := List.mem_filter.1 hcm
    subst heq
    exact ⟨rfl, Or.inr ⟨c, hcf.1, by simpa using hcf.2, rfl, rfl, rfl⟩⟩

theorem flatMap_mergeRow_geoids {cc : List CCRow}
    (hlen : ∀ g : String, (cc.filter (fun c => c.code == g)).length ≤ 1) :
    ∀ bl : List BRow,
      (bl.flatMap (mergeRow cc)).map (fun row => row.geoid) =
        bl.map (fun b => b.geoid) := by
  intro bl
  induction bl with
  | nil => rfl
  | cons b t ih =>
    rw [List.flatMap_cons, List.map_append, mergeRow_geoids hlen b, ih]
    rfl

/-- Witness for C4: a one-row table with classification 1 in band 0-4 has
a cross-tab row summing to 100. -/
theorem c4_witness : (bandLabels.map (pivot_data [wrec1] 1)).sum = 100 := by
  refine (c4_crosstab [wrec1] ?_).2.2.1 1 ⟨wrec1, List.mem_singleton.2 rfl, rfl, rfl⟩
  intro r hr s hs
  rw [List.mem_singleton.1 hr] at hs
  simp only [wrec1, Option.some.injEq] at hs
  rw [← hs]
  decide

/-- C2 counterexample: the final merge of create_va_heatmap is a left
join on the boundary side, so a Virginia record whose county code is
absent from the boundary reference is dropped: with one boundary unit
51001 and one record in county 99999, no aggregate row carries 99999. -/
theorem c2_counterexample :
    (∃ r ∈ va_only [wrec4], r.countyCode = "99999") ∧
      ∀ row ∈ create_va_heatmap shpEx [wrec4], row.geoid ≠ "99999" := by
  constructor
  · exact ⟨wrec4, by simp [va_only, wrec4], rfl⟩
  · intro row hrow
    have hagg : create_va_heatmap shpEx [wrec4] =
        [{ geoid := "51001", name := "Accomack", class1 := 0, total := 0, pct := 0 }] := rfl
    rw [hagg, List.mem_singleton] at hrow
    subst hrow
    decide

/-- C2 amended: every geographic unit occurring among the subset's
Virginia records appears as a row of the aggregate provided the unit is
also present in the boundary reference; units absent from the boundary
reference are dropped by the left join. -/
theorem c2_record_units (shp : List BRow) (filtered : List Record) (g : String)
    (_hrec : ∃ r ∈ va_only filtered, r.countyCode = g)
    (hbd : ∃ b ∈ boundary51 shp, b.geoid = g) :
    ∃ row ∈ create_va_heatmap shp filtered, row.geoid = g := by
  obtain ⟨b, hbm, rfl⟩ := hbd
  obtain ⟨row, hrowm⟩ : ∃ row, row ∈ mergeRow (county_counts (va_only filtered)) b := by
    cases hm : mergeRow (county_counts (va_only filtered)) b with
    | nil => exact absurd hm (mergeRow_ne_nil _ _)
    | cons x xs => exact ⟨x, by simp [hm]⟩
  exact ⟨row, List.mem_flatMap.2 ⟨b, hbm, hrowm⟩, (mem_mergeRow hrowm).1⟩

/-- Witness for the amended C2: a record in boundary county 51001 yields
an aggregate row for 51001. -/
theorem c2_witness :
    ∃ row ∈ create_va_heatmap shpEx [wrec1], row.geoid = "51001" :=
  c2_record_units shpEx [wrec1] "51001"
    ⟨wrec1, by simp [va_only, wrec1], rfl⟩
    ⟨{ statefp := "51", geoid := "51001", name := "Accomack" },
      by simp [boundary51, shpEx], rfl⟩

/-- C3: under distinct boundary GEOIDs and a subset in which the county
code determines the county name, the aggregate has exactly one row per
boundary unit of state 51, in order; and a unit with no subset records
has total, class-1 count and percentage all 0 — including the empty
subset, where this holds for every unit. -/
theorem c3_boundary_rows (shp : List BRow) (filtered : List Record)
    (hb : ((boundary51 shp).map (fun b => b.geoid)).Nodup)
    (hfd : ∀ r ∈ va_only filtered, ∀ s ∈ va_only filtered,
      r.countyCode = s.countyCode → r.county = s.county) :
    ((create_va_heatmap shp filtered).map (fun row => row.geoid) =
        (boundary51 shp).map (fun b => b.geoid)) ∧
      ((create_va_heatmap shp filtered).map (fun row => row.geoid)).Nodup ∧
      (∀ row ∈ create_va_heatmap shp filtered,
        (¬ ∃ r ∈ va_only filtered, r.countyCode = row.geoid) →
        row.total = 0 ∧ row.class1 = 0 ∧ row.pct = 0) := by
  have hnd := county_counts_codes_nodup (va_only filtered) hfd
  have hlen := nodup_key_filter_len (fun c : CCRow => c.code)
    (county_counts (va_only filtered)) hnd
  have h1 : (create_va_heatmap shp filtered).map (fun row => row.geoid) =
      (boundary51 shp).map (fun b => b.geoid) :=
    flatMap_mergeRow_geoids hlen (boundary51 shp)
  refine ⟨h1, h1 ▸ hb, ?_⟩
  intro row hrow hno
  obtain ⟨b, _, hrm⟩ := List.mem_flatMap.1 hrow
  obtain ⟨hgeo, hcases⟩ := mem_mergeRow hrm
  cases hcases with
  | inl hzero => exact ⟨hzero.2.1, hzero.1, hzero.2.2⟩
  | inr hex =>
    obtain ⟨c, hcc, hcode, _⟩ := hex
    obtain ⟨⟨r, hrva, hr1, _⟩, _⟩ := county_counts_rec hcc
    exact absurd ⟨r, hrva, by rw [hr1, hcode, hgeo]⟩ hno

/-- Witness for C3: the empty subset against the one-unit boundary gives
exactly the one row 51001, with all data columns 0. -/
theorem c3_witness :
    (create_va_heatmap shpEx []).map (fun row => row.geoid) = ["51001"] := by
  have h := c3_boundary_rows shpEx []
    (by decide)
    (by intro r hr; simp [va_only] at hr)
  rw [h.1]
  rfl

/-- C5: every percentage the pipeline produces is defined, and is 0
whenever its denominator is 0: the statistics percentage at an empty
table, every cross-tab cell of a row with zero counted records, and the
CLASS_1_PERCENT of every aggregate row with total 0. -/
theorem c5_zero_denominators (shp : List BRow) (l : List Record) :
    ((create_stats_box l).total = 0 → (create_stats_box l).pct = 0) ∧
      (∀ (c : Int) (b : String), pivot_rowTotal l c = 0 → pivot_data l c b = 0) ∧
      (∀ row ∈ create_va_heatmap shp l, row.total = 0 → row.pct = 0) := by
  refine ⟨?_, ?_, ?_⟩
  · intro h0
    have h0' : l.length = 0 := h0
    show (if 0 < l.length then
        ((l.filter (fun r => r.classification == 1)).length : Rat) / (l.length : Rat) * 100
      else 0) = 0
    rw [if_neg (by omega)]
  · intro c b hT
    unfold pivot_data
    rw [hT]
    simp
  · intro row hrow h0
    obtain ⟨b, _, hrm⟩ := List.mem_flatMap.1 hrow
    obtain ⟨_, hcases⟩ := mem_mergeRow hrm
    cases hcases with
    | inl hzero => exact hzero.2.2
    | inr hex =>
      obtain ⟨c, hcc, _, _, htot, _⟩ := hex
      have hpos := (county_counts_rec hcc).2
      rw [htot] at h0
      omega

/-- Witness for C5: a cross-tab cell with zero row total is 0. -/
theorem c5_witness : pivot_data ([] : List Record) 0 (bandLabel 0) = 0 :=
  (c5_zero_denominators [] []).2.1 0 (bandLabel 0) rfl

end Dash
